import Mathlib

/-!
Shallow embedding of `challenge_scoring/metrics/scoring.py` from
scilus/tractometer_scorer.

The orchestrator `score_submission` (scoring.py:67-258) and the
ground-truth loader `_prepare_gt_bundles_info` (scoring.py:25-64) are
translated from the source.  External collaborators (file and anatomy
I/O, QuickBundles clustering, streamline geometry) and the two modules
of this repository that are not part of the provided sources
(`auto_extract_VCs` from `metrics/valid_connections.py` and
`group_and_assign_ibs` from `metrics/invalid_connections.py`) enter the
embedding as parameters; where a property depends on their behaviour it
is taken from the spec and flagged as such.

Python floats are modelled as exact rationals (ℚ).  Python's `/` with a
zero denominator is modelled by an explicit `zeroDivision` error branch,
and the two `raise ValueError` sites of scoring.py by dedicated error
constructors.
-/

/-- The errors `score_submission` can raise.
* `missingAttribs f` models scoring.py:41-42,
  `ValueError("Missing basic bundle attribs for {0}".format(bundle_f))`
  (the spec calls this failure the MissingAttributeError).
* `partitionError` models scoring.py:204,
  `ValueError("Some streamlines were not correctly assigned to NC")`.
* `zeroDivision` models the Python `ZeroDivisionError` raised by
  `VC /= total_strl_count` (scoring.py:217) when the submission is
  empty. -/
inductive ScoreError where
  | missingAttribs (bundle_f : String)
  | partitionError
  | zeroDivision
deriving DecidableEq, Repr

deriving instance DecidableEq for Except

/-- Per-bundle assignment statistics, the values of `found_vbs_info`
returned by `auto_extract_VCs` (spec §3, FoundBundleInfo): number of
assigned streamlines plus the four spatial agreement metrics. -/
structure VBInfo where
  nb_streamlines : ℕ
  overlap : ℚ
  overreach : ℚ
  overreach_norm : ℚ
  f1_score : ℚ
deriving DecidableEq, Repr

/-- The scorecard dictionary assembled at scoring.py:229-256.  Python
dictionaries keyed by bundle name are modelled as association lists in
insertion order. -/
structure Scorecard where
  version : ℕ
  algo_version : ℕ
  VC : ℚ
  IC : ℚ
  VCWP : ℚ
  NC : ℚ
  VB : ℕ
  IB : ℕ
  streamlines_per_bundle : List (String × ℕ)
  total_streamlines_count : ℕ
  overlap_per_bundle : List (String × ℚ)
  overreach_per_bundle : List (String × ℚ)
  overreach_norm_gt_per_bundle : List (String × ℚ)
  f1_score_per_bundle : List (String × ℚ)
  mean_OL : ℚ
  mean_OR : ℚ
  mean_ORn : ℚ
  mean_F1 : ℚ
deriving DecidableEq, Repr

/-- A ground-truth reference bundle record built by
`_prepare_gt_bundles_info` (scoring.py:59-62).  The clustered reference
streamlines and the binary mask are produced by external collaborators
(QuickBundles, nibabel) and carry no information the orchestrator
inspects, so only the name and the acceptance threshold are kept. -/
structure RefBundle where
  name : String
  threshold : ℚ
deriving DecidableEq, Repr

/-- The stem of a filename, i.e. os.path.splitext(f)[0]: the part
before the last dot (scoring.py:37).  (Python's special case for names that start with
the dot is irrelevant for bundle files and not modelled.) -/
def splitext_base (f : String) : String :=
  let cs := f.toList
  if '.' ∈ cs then String.mk ((cs.reverse.dropWhile (fun c => c ≠ '.')).tail.reverse)
  else f

/-- Ground-truth environment: the sorted listing of the bundles
directory (scoring.py:36, `sorted(os.listdir(bundles_dir))`) and the
attributes mapping, modelled as the partial map
`filename ↦ cluster_threshold` behind
`gt_bundles_attribs.get(os.path.basename(bundle_f))` and
`bundle_attribs['cluster_threshold']` (scoring.py:39,60). -/
structure GTEnv where
  bundle_files : List String
  attribs : String → Option ℚ

/-- The loader `_prepare_gt_bundles_info` (scoring.py:25-64, the
leading underscore is dropped here): iterate over the
sorted bundle files; fail on the first file with no entry in the
attributes mapping, otherwise build the RefBundle record.  Loading the
tractogram, resampling, clustering and loading the mask
(scoring.py:44-57) are external collaborator calls with no effect on
the returned names and thresholds. -/
def prepare_gt_bundles_info : List String → (String → Option ℚ) →
    Except ScoreError (List RefBundle)
  | [], _ => .ok []
  | bundle_f :: rest, attribs =>
    match attribs bundle_f with
    | none => .error (.missingAttribs bundle_f)
    | some thres =>
      match prepare_gt_bundles_info rest attribs with
      | .error e => .error e
      | .ok tail => .ok ({ name := splitext_base bundle_f, threshold := thres } :: tail)

/-- A submission, as far as the orchestrator inspects it: the number of
streamlines (`len(full_strl)`, scoring.py:167) and each streamline's
geometric length (`slength(full_strl[idx])`, scoring.py:179). -/
structure Submission where
  total_strl_count : ℕ
  strlLength : ℕ → ℚ

/-- The result of `auto_extract_VCs` (scoring.py:156): the set of valid
streamline indices and the per-bundle info mapping. -/
structure VCExtraction where
  VC_indices : Finset ℕ
  found_vbs_info : List (String × VBInfo)

/-- The persistence flags and paths of `score_submission`
(scoring.py:71-78).  In the source they only gate the calls to
`save_valid_connections` (scoring.py:159-163) and
`save_tracts_from_voxel_space` (scoring.py:206-215), and select file
names; none of them enters the scorecard computation. -/
structure SaveFlags where
  save_full_vc : Bool
  save_full_ic : Bool
  save_full_nc : Bool
  save_IBs : Bool
  save_VBs : Bool
  segmented_out_dir : String
  segmented_base_name : String
  out_tract_type : String
  verbose : Bool

/-- scoring.py:175, `length_thres = 35.` -/
def length_thres : ℚ := 35

/-- scoring.py:168-169,
`sorted(set(range(total_strl_count)) - VC_indices)`: since
`List.range` is ascending, filtering it is the sorted set
difference. -/
def candidate_ic_strl_indices (total_strl_count : ℕ) (VC_indices : Finset ℕ) : List ℕ :=
  (List.range total_strl_count).filter (fun idx => idx ∉ VC_indices)

/-- scoring.py:178-180: the candidates kept by the length filter
(`slength(full_strl[idx]) >= length_thres`). -/
def candidate_ic_indices (total_strl_count : ℕ) (VC_indices : Finset ℕ)
    (strlLength : ℕ → ℚ) : List ℕ :=
  (candidate_ic_strl_indices total_strl_count VC_indices).filter
    (fun idx => length_thres ≤ strlLength idx)

/-- scoring.py:178-182: the indices rejected by the length filter
(else-branch, `slength(full_strl[idx]) < length_thres`). -/
def rejected_short_indices (total_strl_count : ℕ) (VC_indices : Finset ℕ)
    (strlLength : ℕ → ℚ) : List ℕ :=
  (candidate_ic_strl_indices total_strl_count VC_indices).filter
    (fun idx => strlLength idx < length_thres)

/-- scoring.py:189-199: `ic_counts = 0; nb_ib = 0`, then
`group_and_assign_ibs` is called only when the candidate list is
non-empty (`if len(candidate_ic_indices):`).  The grouper is a
parameter; it returns
`(additional_rejected_indices, ic_counts, nb_ib)`. -/
def groupIbsResult (group_fn : List ℕ → List ℕ × ℕ × ℕ)
    (candidates : List ℕ) : List ℕ × ℕ × ℕ :=
  if candidates.length ≠ 0 then group_fn candidates else ([], 0, 0)

/-- scoring.py:172,182,201: the NC index list — length-rejected indices
extended with the grouper's additional rejects. -/
def rejected_indices (total_strl_count : ℕ) (VC_indices : Finset ℕ)
    (strlLength : ℕ → ℚ) (group_fn : List ℕ → List ℕ × ℕ × ℕ) : List ℕ :=
  rejected_short_indices total_strl_count VC_indices strlLength ++
    (groupIbsResult group_fn
      (candidate_ic_indices total_strl_count VC_indices strlLength)).1

/-- scoring.py:189,193: the count of streamlines placed into invalid
bundles. -/
def ic_counts (total_strl_count : ℕ) (VC_indices : Finset ℕ)
    (strlLength : ℕ → ℚ) (group_fn : List ℕ → List ℕ × ℕ × ℕ) : ℕ :=
  (groupIbsResult group_fn
    (candidate_ic_indices total_strl_count VC_indices strlLength)).2.1

/-- scoring.py:190,193: the number of invalid bundles formed. -/
def nb_ib (total_strl_count : ℕ) (VC_indices : Finset ℕ)
    (strlLength : ℕ → ℚ) (group_fn : List ℕ → List ℕ × ℕ × ℕ) : ℕ :=
  (groupIbsResult group_fn
    (candidate_ic_indices total_strl_count VC_indices strlLength)).2.2

/-- Arithmetic mean, as np.mean, of a list of rationals
(scoring.py:252-256). -/
def listMean (l : List ℚ) : ℚ :=
  l.sum / l.length

/-- The scorecard assembled at scoring.py:217-256 when no error is
raised.  Note that `streamlines_per_bundle` and `nb_VB_found`
(scoring.py:223-227) filter on `nb_streamlines > 0` while the four
per-bundle metric mappings (scoring.py:242-249) and the means
(scoring.py:252-256) range over all of `found_vbs_info`. -/
def successScorecard (total_strl_count : ℕ) (VC_indices : Finset ℕ)
    (found_vbs_info : List (String × VBInfo)) (strlLength : ℕ → ℚ)
    (group_fn : List ℕ → List ℕ × ℕ × ℕ) : Scorecard :=
  {     version := 2
        algo_version := 5
        VC := (VC_indices.card : ℚ) / (total_strl_count : ℚ)
        IC := (((candidate_ic_strl_indices total_strl_count VC_indices).length : ℚ) -
               ((rejected_indices total_strl_count VC_indices strlLength group_fn).length : ℚ)) /
              (total_strl_count : ℚ)
        VCWP := 0
        NC := ((rejected_indices total_strl_count VC_indices strlLength group_fn).length : ℚ) /
              (total_strl_count : ℚ)
        VB := (found_vbs_info.filter (fun kv => 0 < kv.2.nb_streamlines)).length
        IB := nb_ib total_strl_count VC_indices strlLength group_fn
        streamlines_per_bundle :=
          (found_vbs_info.filter (fun kv => 0 < kv.2.nb_streamlines)).map
            (fun kv => (kv.1, kv.2.nb_streamlines))
        total_streamlines_count := total_strl_count
        overlap_per_bundle := found_vbs_info.map (fun kv => (kv.1, kv.2.overlap))
        overreach_per_bundle := found_vbs_info.map (fun kv => (kv.1, kv.2.overreach))
        overreach_norm_gt_per_bundle :=
          found_vbs_info.map (fun kv => (kv.1, kv.2.overreach_norm))
        f1_score_per_bundle := found_vbs_info.map (fun kv => (kv.1, kv.2.f1_score))
        mean_OL := listMean (found_vbs_info.map (fun kv => kv.2.overlap))
        mean_OR := listMean (found_vbs_info.map (fun kv => kv.2.overreach))
        mean_ORn := listMean (found_vbs_info.map (fun kv => kv.2.overreach_norm))
        mean_F1 := listMean (found_vbs_info.map (fun kv => kv.2.f1_score)) }

/-- scoring.py:203-256: the partition consistency check
(`ic_counts != len(candidate_ic_strl_indices) - len(rejected_indices)`,
over Python integers, hence over ℤ), then the computation of the
fractions — whose division by `total_strl_count == 0` raises a
`ZeroDivisionError` — and the assembly of the scorecard. -/
def assembleScores (total_strl_count : ℕ) (VC_indices : Finset ℕ)
    (found_vbs_info : List (String × VBInfo)) (strlLength : ℕ → ℚ)
    (group_fn : List ℕ → List ℕ × ℕ × ℕ) : Except ScoreError Scorecard :=
  if (ic_counts total_strl_count VC_indices strlLength group_fn : ℤ) ≠
      ((candidate_ic_strl_indices total_strl_count VC_indices).length : ℤ) -
      ((rejected_indices total_strl_count VC_indices strlLength group_fn).length : ℤ) then
    .error .partitionError
  else if total_strl_count = 0 then
    .error .zeroDivision
  else
    .ok (successScorecard total_strl_count VC_indices found_vbs_info strlLength group_fn)

/-- The orchestrator `score_submission` (scoring.py:67-258): load the
ground truth
(fatal on a missing attributes entry), load the submission and extract
the valid connections (collaborator parameters `extract_fn`, modelling
`auto_extract_VCs`, and `group_fn`, modelling `group_and_assign_ibs` —
per spec §4.3 the persistence flags handed to the grouper only control
file output, not the returned classification), then classify the rest
and assemble the scorecard.  The `flags` only gate persistence calls
(scoring.py:159-163, 206-215), which do not touch the scores. -/
def score_submission (env : GTEnv)
    (extract_fn : Submission → List RefBundle → VCExtraction)
    (group_fn : List ℕ → List ℕ × ℕ × ℕ)
    (sub : Submission) (flags : SaveFlags) : Except ScoreError Scorecard :=
  match prepare_gt_bundles_info env.bundle_files env.attribs with
  | .error e => .error e
  | .ok ref_bundles =>
    let ext := extract_fn sub ref_bundles
    let _ := flags
    assembleScores sub.total_strl_count ext.VC_indices ext.found_vbs_info
      sub.strlLength group_fn

/-! ### Concrete fixtures used by the witness and counterexample
theorems -/

/-- A one-bundle ground-truth environment whose single file has an
attributes entry. -/
def envS : GTEnv :=
  ⟨["b1.trk"], fun f => if f = "b1.trk" then some 10 else none⟩

/-- The reference bundles `prepare_gt_bundles_info` builds from
`envS`. -/
def rbsS : List RefBundle := [⟨"b1", 10⟩]

/-- A five-streamline submission; streamline 3 is 20 length units long,
all others 40. -/
def subS : Submission := ⟨5, fun i => if i = 3 then 20 else 40⟩

/-- Per-bundle info with one found bundle and one bundle with zero
assigned streamlines. -/
def vbsS : List (String × VBInfo) :=
  [("b1", ⟨3, 1/2, 1/4, 1/5, 2/3⟩), ("b2", ⟨0, 3/4, 0, 0, 0⟩)]

/-- An extractor fixture: streamline 0 is the only valid connection. -/
def extS : Submission → List RefBundle → VCExtraction :=
  fun _ _ => ⟨{0}, vbsS⟩

/-- A grouper fixture that accepts every candidate into one invalid
bundle. -/
def grpS : List ℕ → List ℕ × ℕ × ℕ :=
  fun candidates => ([], candidates.length, 1)

/-- All persistence flags off. -/
def flagsS : SaveFlags :=
  ⟨false, false, false, false, false, "", "", "tck", false⟩

/-- The scorecard `score_submission` produces on the fixtures
(`successScorecard` applied to the data the fixture run reaches it
with). -/
def sS : Scorecard :=
  successScorecard subS.total_strl_count (extS subS rbsS).VC_indices
    (extS subS rbsS).found_vbs_info subS.strlLength grpS

/-- An empty submission (no streamlines). -/
def subEmpty : Submission := ⟨0, fun _ => 0⟩

/-- A two-streamline submission whose streamlines are all 10 length
units long (shorter than the threshold). -/
def subShort : Submission := ⟨2, fun _ => 10⟩

/-- A ground-truth environment whose second bundle file has no
attributes entry. -/
def envMissing : GTEnv :=
  ⟨["a.trk", "b.trk"], fun f => if f = "a.trk" then some 5 else none⟩

/-! ### Helper lemmas -/

theorem length_filter_range (N : ℕ) (p : ℕ → Prop) [DecidablePred p] :
    ((List.range N).filter (fun i => p i)).length = ((Finset.range N).filter p).card := by
  simp [Finset.filter, Finset.range, Multiset.range, List.countP_eq_length_filter]

theorem candidate_ic_strl_indices_length {N : ℕ} {VC : Finset ℕ}
    (h : VC ⊆ Finset.range N) :
    (candidate_ic_strl_indices N VC).length = N - VC.card := by
  unfold candidate_ic_strl_indices
  rw [length_filter_range]
  rw [Finset.filter_not, Finset.filter_mem_eq_inter, Finset.inter_eq_right.mpr h,
    Finset.card_sdiff h, Finset.card_range]

theorem mem_candidate_ic_strl_indices {N idx : ℕ} {VC : Finset ℕ} :
    idx ∈ candidate_ic_strl_indices N VC ↔ idx < N ∧ idx ∉ VC := by
  simp [candidate_ic_strl_indices]

theorem mem_candidate_ic_indices {N idx : ℕ} {VC : Finset ℕ} {len : ℕ → ℚ} :
    idx ∈ candidate_ic_indices N VC len ↔
      (idx < N ∧ idx ∉ VC) ∧ length_thres ≤ len idx := by
  simp [candidate_ic_indices, mem_candidate_ic_strl_indices]

theorem mem_rejected_short_indices {N idx : ℕ} {VC : Finset ℕ} {len : ℕ → ℚ} :
    idx ∈ rejected_short_indices N VC len ↔
      (idx < N ∧ idx ∉ VC) ∧ len idx < length_thres := by
  simp [rejected_short_indices, mem_candidate_ic_strl_indices]

theorem assembleScores_ok_iff {N : ℕ} {VC : Finset ℕ}
    {vbs : List (String × VBInfo)} {len : ℕ → ℚ}
    {grp : List ℕ → List ℕ × ℕ × ℕ} {s : Scorecard} :
    assembleScores N VC vbs len grp = .ok s ↔
      (ic_counts N VC len grp : ℤ) =
        ((candidate_ic_strl_indices N VC).length : ℤ) -
        ((rejected_indices N VC len grp).length : ℤ) ∧
      N ≠ 0 ∧ s = successScorecard N VC vbs len grp := by
  unfold assembleScores
  by_cases hc : (ic_counts N VC len grp : ℤ) ≠
      ((candidate_ic_strl_indices N VC).length : ℤ) -
      ((rejected_indices N VC len grp).length : ℤ)
  · rw [if_pos hc]
    simp [hc]
  · rw [if_neg hc]
    push_neg at hc
    by_cases hN : N = 0
    · rw [if_pos hN]
      simp [hN]
    · rw [if_neg hN]
      simp [hc, hN, eq_comm]

theorem score_submission_eq {env : GTEnv} {rbs : List RefBundle}
    (ext : Submission → List RefBundle → VCExtraction)
    (grp : List ℕ → List ℕ × ℕ × ℕ) (sub : Submission) (flags : SaveFlags)
    (hprep : prepare_gt_bundles_info env.bundle_files env.attribs = .ok rbs) :
    score_submission env ext grp sub flags =
      assembleScores sub.total_strl_count (ext sub rbs).VC_indices
        (ext sub rbs).found_vbs_info sub.strlLength grp := by
  unfold score_submission
  rw [hprep]

/-! ### The claims -/

/-- Claim C1: for every submission scored successfully by
`score_submission`, the three classes partition the index set exactly —
the VC count, the effective IC count and the NC count add up to the
total streamline count — and the reported fractions VC, IC and NC sum
to 1. -/
theorem score_submission_partition_exact
    (env : GTEnv) (ext : Submission → List RefBundle → VCExtraction)
    (grp : List ℕ → List ℕ × ℕ × ℕ) (sub : Submission) (flags : SaveFlags)
    (rbs : List RefBundle) (s : Scorecard)
    (hprep : prepare_gt_bundles_info env.bundle_files env.attribs = .ok rbs)
    (hVC : (ext sub rbs).VC_indices ⊆ Finset.range sub.total_strl_count)
    (h : score_submission env ext grp sub flags = .ok s) :
    (ext sub rbs).VC_indices.card
      + ic_counts sub.total_strl_count (ext sub rbs).VC_indices sub.strlLength grp
      + (rejected_indices sub.total_strl_count (ext sub rbs).VC_indices
          sub.strlLength grp).length
      = sub.total_strl_count
    ∧ s.VC + s.IC + s.NC = 1 := by
  rw [score_submission_eq ext grp sub flags hprep, assembleScores_ok_iff] at h
  obtain ⟨hchk, hN, hs⟩ := h
  have hcandlen := candidate_ic_strl_indices_length hVC
  have hcard : (ext sub rbs).VC_indices.card ≤ sub.total_strl_count := by
    simpa using Finset.card_le_card hVC
  refine ⟨by omega, ?_⟩
  subst hs
  have hNQ : ((sub.total_strl_count : ℚ)) ≠ 0 := by
    exact_mod_cast hN
  simp only [successScorecard]
  rw [div_add_div_same, div_add_div_same]
  have h1 : (ext sub rbs).VC_indices.card
      + (candidate_ic_strl_indices sub.total_strl_count (ext sub rbs).VC_indices).length
      = sub.total_strl_count := by omega
  have h2 : ((ext sub rbs).VC_indices.card : ℚ) +
      ((candidate_ic_strl_indices sub.total_strl_count (ext sub rbs).VC_indices).length : ℚ)
      = (sub.total_strl_count : ℚ) := by exact_mod_cast h1
  have h3 : ((ext sub rbs).VC_indices.card : ℚ) +
      (((candidate_ic_strl_indices sub.total_strl_count (ext sub rbs).VC_indices).length : ℚ) -
        ((rejected_indices sub.total_strl_count (ext sub rbs).VC_indices
          sub.strlLength grp).length : ℚ)) +
      ((rejected_indices sub.total_strl_count (ext sub rbs).VC_indices
          sub.strlLength grp).length : ℚ) = (sub.total_strl_count : ℚ) := by
    linarith
  rw [h3, div_self hNQ]

/-- Witness for C1 on the concrete fixtures. -/
theorem score_submission_partition_exact_witness :
    (prepare_gt_bundles_info envS.bundle_files envS.attribs = .ok rbsS
      ∧ (extS subS rbsS).VC_indices ⊆ Finset.range subS.total_strl_count
      ∧ score_submission envS extS grpS subS flagsS = .ok sS)
    ∧ ((extS subS rbsS).VC_indices.card
        + ic_counts subS.total_strl_count (extS subS rbsS).VC_indices subS.strlLength grpS
        + (rejected_indices subS.total_strl_count (extS subS rbsS).VC_indices
            subS.strlLength grpS).length
        = subS.total_strl_count
      ∧ sS.VC + sS.IC + sS.NC = 1) := by
  have hprep : prepare_gt_bundles_info envS.bundle_files envS.attribs = .ok rbsS := by
    decide
  have hVC : (extS subS rbsS).VC_indices ⊆ Finset.range subS.total_strl_count := by
    decide
  have hs : score_submission envS extS grpS subS flagsS = .ok sS := by
    rw [score_submission_eq extS grpS subS flagsS hprep]
    unfold assembleScores
    rw [if_neg (by decide), if_neg (by decide)]
    rfl
  exact ⟨⟨hprep, hVC, hs⟩,
    score_submission_partition_exact envS extS grpS subS flagsS rbsS sS hprep hVC hs⟩

/-- Claim C6: in every scorecard produced by `score_submission`, the VB
count equals the number of entries of `streamlines_per_bundle`, both
being derived from the same `nb_streamlines > 0` filter
(scoring.py:223-227). -/
theorem score_submission_VB_count_eq
    (env : GTEnv) (ext : Submission → List RefBundle → VCExtraction)
    (grp : List ℕ → List ℕ × ℕ × ℕ) (sub : Submission) (flags : SaveFlags)
    (s : Scorecard)
    (h : score_submission env ext grp sub flags = .ok s) :
    s.VB = s.streamlines_per_bundle.length := by
  cases hprep : prepare_gt_bundles_info env.bundle_files env.attribs with
  | error e =>
    have hrun : score_submission env ext grp sub flags = .error e := by
      unfold score_submission
      rw [hprep]
    rw [hrun] at h
    simp at h
  | ok rbs =>
    rw [score_submission_eq ext grp sub flags hprep, assembleScores_ok_iff] at h
    obtain ⟨-, -, hs⟩ := h
    subst hs
    simp [successScorecard]

/-- Witness for C6 on the concrete fixtures. -/
theorem score_submission_VB_count_eq_witness :
    score_submission envS extS grpS subS flagsS = .ok sS ∧
    sS.VB = sS.streamlines_per_bundle.length := by
  have hprep : prepare_gt_bundles_info envS.bundle_files envS.attribs = .ok rbsS := by
    decide
  have hs : score_submission envS extS grpS subS flagsS = .ok sS := by
    rw [score_submission_eq extS grpS subS flagsS hprep]
    unfold assembleScores
    rw [if_neg (by decide), if_neg (by decide)]
    rfl
  exact ⟨hs, score_submission_VB_count_eq envS extS grpS subS flagsS sS hs⟩

/-- Claim C7: the classification and the whole scorecard are a
deterministic function of the inputs: two runs of `score_submission` on
the same submission and ground truth — regardless of the persistence
flags, which only gate file output — yield identical results.  (The
clustering collaborators enter the embedding as functions, following
spec §4.2-4.3: their classification output depends only on the data
inputs, with no randomness.) -/
theorem score_submission_deterministic
    (env : GTEnv) (ext : Submission → List RefBundle → VCExtraction)
    (grp : List ℕ → List ℕ × ℕ × ℕ) (sub : Submission)
    (flags₁ flags₂ : SaveFlags) :
    score_submission env ext grp sub flags₁ =
      score_submission env ext grp sub flags₂ := rfl

/-- Claim C8: in every scorecard produced by `score_submission`, VCWP
is the placeholder constant 0 (scoring.py:221,234), never computed from
the submission. -/
theorem score_submission_VCWP_zero
    (env : GTEnv) (ext : Submission → List RefBundle → VCExtraction)
    (grp : List ℕ → List ℕ × ℕ × ℕ) (sub : Submission) (flags : SaveFlags)
    (s : Scorecard)
    (h : score_submission env ext grp sub flags = .ok s) :
    s.VCWP = 0 := by
  cases hprep : prepare_gt_bundles_info env.bundle_files env.attribs with
  | error e =>
    have hrun : score_submission env ext grp sub flags = .error e := by
      unfold score_submission
      rw [hprep]
    rw [hrun] at h
    simp at h
  | ok rbs =>
    rw [score_submission_eq ext grp sub flags hprep, assembleScores_ok_iff] at h
    obtain ⟨-, -, hs⟩ := h
    subst hs
    rfl

/-- Witness for C8 on the concrete fixtures. -/
theorem score_submission_VCWP_zero_witness :
    score_submission envS extS grpS subS flagsS = .ok sS ∧ sS.VCWP = 0 := by
  have hprep : prepare_gt_bundles_info envS.bundle_files envS.attribs = .ok rbsS := by
    decide
  have hs : score_submission envS extS grpS subS flagsS = .ok sS := by
    rw [score_submission_eq extS grpS subS flagsS hprep]
    unfold assembleScores
    rw [if_neg (by decide), if_neg (by decide)]
    rfl
  exact ⟨hs, score_submission_VCWP_zero envS extS grpS subS flagsS sS hs⟩

/-- Claim C9: `score_submission` requires a non-empty submission — on a
submission with zero streamlines the fraction computation
(scoring.py:217) divides by `total_strl_count == 0` and raises a
`ZeroDivisionError` instead of returning a scorecard. -/
theorem score_submission_empty_raises_zero_division
    (env : GTEnv) (ext : Submission → List RefBundle → VCExtraction)
    (grp : List ℕ → List ℕ × ℕ × ℕ) (sub : Submission) (flags : SaveFlags)
    (rbs : List RefBundle)
    (hprep : prepare_gt_bundles_info env.bundle_files env.attribs = .ok rbs)
    (hN : sub.total_strl_count = 0) :
    score_submission env ext grp sub flags = .error .zeroDivision := by
  rw [score_submission_eq ext grp sub flags hprep]
  unfold assembleScores
  have hcand : candidate_ic_strl_indices sub.total_strl_count (ext sub rbs).VC_indices = [] := by
    simp [candidate_ic_strl_indices, hN]
  have hcandi : candidate_ic_indices sub.total_strl_count (ext sub rbs).VC_indices
      sub.strlLength = [] := by
    simp [candidate_ic_indices, hcand]
  have hrej : rejected_indices sub.total_strl_count (ext sub rbs).VC_indices
      sub.strlLength grp = [] := by
    simp [rejected_indices, rejected_short_indices, hcand, hcandi, groupIbsResult]
  have hic : ic_counts sub.total_strl_count (ext sub rbs).VC_indices
      sub.strlLength grp = 0 := by
    simp [ic_counts, hcandi, groupIbsResult]
  rw [if_neg (by simp [hic, hcand, hrej]), if_pos hN]

/-- Witness for C9: the empty submission on an otherwise healthy
environment. -/
theorem score_submission_empty_raises_zero_division_witness :
    (prepare_gt_bundles_info envS.bundle_files envS.attribs = .ok rbsS
      ∧ subEmpty.total_strl_count = 0)
    ∧ score_submission envS extS grpS subEmpty flagsS = .error .zeroDivision :=
  ⟨⟨by decide, by decide⟩,
    score_submission_empty_raises_zero_division envS extS grpS subEmpty flagsS rbsS
      (by decide) (by decide)⟩

theorem prepare_missing_attribs {files : List String} {attribs : String → Option ℚ}
    (hf : ∃ f ∈ files, attribs f = none) :
    ∃ f', f' ∈ files ∧ attribs f' = none ∧
      prepare_gt_bundles_info files attribs = .error (.missingAttribs f') := by
  induction files with
  | nil => simp at hf
  | cons g rest ih =>
    cases hg : attribs g with
    | none =>
      refine ⟨g, by simp, hg, ?_⟩
      unfold prepare_gt_bundles_info
      rw [hg]
    | some t =>
      have hrest : ∃ f ∈ rest, attribs f = none := by
        obtain ⟨f, hfmem, hfa⟩ := hf
        rcases List.mem_cons.mp hfmem with hcase | hcase
        · subst hcase
          rw [hg] at hfa
          cases hfa
        · exact ⟨f, hcase, hfa⟩
      obtain ⟨f', hmem, hfa, hrec⟩ := ih hrest
      refine ⟨f', List.mem_cons_of_mem _ hmem, hfa, ?_⟩
      unfold prepare_gt_bundles_info
      rw [hg, hrec]

/-- Claim C4: if any ground-truth bundle file has no entry in the
attributes mapping, `score_submission` fails fatally with the
missing-attributes error from the ground-truth loader
(scoring.py:39-42), and it does so before the submission is even
loaded or classified: the result is the same whatever the submission,
the extractor, the grouper and the flags are. -/
theorem score_submission_missing_attribs_fatal
    (env : GTEnv) (ext : Submission → List RefBundle → VCExtraction)
    (grp : List ℕ → List ℕ × ℕ × ℕ) (sub : Submission) (flags : SaveFlags)
    (hf : ∃ f ∈ env.bundle_files, env.attribs f = none) :
    ∃ f', f' ∈ env.bundle_files ∧ env.attribs f' = none ∧
      score_submission env ext grp sub flags = .error (.missingAttribs f') ∧
      ∀ (ext₂ : Submission → List RefBundle → VCExtraction)
        (grp₂ : List ℕ → List ℕ × ℕ × ℕ) (sub₂ : Submission) (flags₂ : SaveFlags),
        score_submission env ext grp sub flags =
          score_submission env ext₂ grp₂ sub₂ flags₂ := by
  obtain ⟨f', hmem, hfa, hprep⟩ := prepare_missing_attribs hf
  have herr : ∀ (ext₂ : Submission → List RefBundle → VCExtraction)
      (grp₂ : List ℕ → List ℕ × ℕ × ℕ) (sub₂ : Submission) (flags₂ : SaveFlags),
      score_submission env ext₂ grp₂ sub₂ flags₂ = .error (.missingAttribs f') := by
    intro ext₂ grp₂ sub₂ flags₂
    unfold score_submission
    rw [hprep]
  refine ⟨f', hmem, hfa, herr ext grp sub flags, ?_⟩
  intro ext₂ grp₂ sub₂ flags₂
  rw [herr, herr]

/-- Witness for C4: an environment whose second bundle file has no
attributes entry. -/
theorem score_submission_missing_attribs_fatal_witness :
    (∃ f ∈ envMissing.bundle_files, envMissing.attribs f = none) ∧
    (∃ f', f' ∈ envMissing.bundle_files ∧ envMissing.attribs f' = none ∧
      score_submission envMissing extS grpS subS flagsS = .error (.missingAttribs f') ∧
      ∀ (ext₂ : Submission → List RefBundle → VCExtraction)
        (grp₂ : List ℕ → List ℕ × ℕ × ℕ) (sub₂ : Submission) (flags₂ : SaveFlags),
        score_submission envMissing extS grpS subS flagsS =
          score_submission envMissing ext₂ grp₂ sub₂ flags₂) :=
  ⟨by decide,
    score_submission_missing_attribs_fatal envMissing extS grpS subS flagsS (by decide)⟩

/-- Claim C5: the length filter (scoring.py:174-182) applies exactly to
the indices outside VC_indices: a non-VC streamline shorter than the
35.0 threshold goes to the rejected (NC) list and never to the IC
candidates, a non-VC streamline of length at least 35.0 becomes an IC
candidate, and a streamline in VC_indices is never length-filtered at
all — it appears in neither list, whatever its length. -/
theorem score_submission_length_filter
    (N : ℕ) (VC : Finset ℕ) (len : ℕ → ℚ) (idx : ℕ) (hidx : idx < N) :
    (idx ∉ VC →
      (len idx < length_thres →
        idx ∈ rejected_short_indices N VC len ∧
        idx ∉ candidate_ic_indices N VC len) ∧
      (length_thres ≤ len idx → idx ∈ candidate_ic_indices N VC len)) ∧
    (idx ∈ VC →
      idx ∉ candidate_ic_strl_indices N VC ∧
      idx ∉ rejected_short_indices N VC len ∧
      idx ∉ candidate_ic_indices N VC len) := by
  constructor
  · intro hnot
    constructor
    · intro hlt
      refine ⟨mem_rejected_short_indices.mpr ⟨⟨hidx, hnot⟩, hlt⟩, fun hmem => ?_⟩
      exact absurd (mem_candidate_ic_indices.mp hmem).2 (not_le.mpr hlt)
    · intro hge
      exact mem_candidate_ic_indices.mpr ⟨⟨hidx, hnot⟩, hge⟩
  · intro hin
    refine ⟨fun hmem => ?_, fun hmem => ?_, fun hmem => ?_⟩
    · exact (mem_candidate_ic_strl_indices.mp hmem).2 hin
    · exact (mem_rejected_short_indices.mp hmem).1.2 hin
    · exact (mem_candidate_ic_indices.mp hmem).1.2 hin

/-- Witness for C5 at a concrete short non-VC streamline. -/
theorem score_submission_length_filter_witness :
    1 < 2 ∧
    ((1 ∉ ({0} : Finset ℕ) →
      ((10 : ℚ) < length_thres →
        1 ∈ rejected_short_indices 2 {0} (fun _ => 10) ∧
        1 ∉ candidate_ic_indices 2 {0} (fun _ => 10)) ∧
      (length_thres ≤ (10 : ℚ) → 1 ∈ candidate_ic_indices 2 {0} (fun _ => 10))) ∧
    (1 ∈ ({0} : Finset ℕ) →
      1 ∉ candidate_ic_strl_indices 2 {0} ∧
      1 ∉ rejected_short_indices 2 {0} (fun _ => 10) ∧
      1 ∉ candidate_ic_indices 2 {0} (fun _ => 10))) :=
  ⟨by decide, score_submission_length_filter 2 {0} (fun _ => 10) 1 (by decide)⟩

/-- Claim C10: if every non-VC streamline is shorter than the length
threshold, the IC candidate list is empty, so the grouper is never
invoked (scoring.py:192, the result does not depend on it), the
rejected set is exactly the non-VC index list, and the scorecard
reports IC = 0 and IB = 0 with NC covering all non-VC streamlines. -/
theorem score_submission_all_short_no_grouper
    (env : GTEnv) (ext : Submission → List RefBundle → VCExtraction)
    (grp : List ℕ → List ℕ × ℕ × ℕ) (sub : Submission) (flags : SaveFlags)
    (rbs : List RefBundle)
    (hprep : prepare_gt_bundles_info env.bundle_files env.attribs = .ok rbs)
    (hN : sub.total_strl_count ≠ 0)
    (hshort : ∀ idx ∈ candidate_ic_strl_indices sub.total_strl_count
        (ext sub rbs).VC_indices, sub.strlLength idx < length_thres) :
    candidate_ic_indices sub.total_strl_count (ext sub rbs).VC_indices
      sub.strlLength = [] ∧
    (∀ grp₂ : List ℕ → List ℕ × ℕ × ℕ,
      score_submission env ext grp₂ sub flags =
        score_submission env ext grp sub flags) ∧
    rejected_indices sub.total_strl_count (ext sub rbs).VC_indices
      sub.strlLength grp =
      candidate_ic_strl_indices sub.total_strl_count (ext sub rbs).VC_indices ∧
    (∃ s : Scorecard, score_submission env ext grp sub flags = .ok s ∧
      s.IC = 0 ∧ s.IB = 0 ∧
      s.NC = ((candidate_ic_strl_indices sub.total_strl_count
                (ext sub rbs).VC_indices).length : ℚ) / (sub.total_strl_count : ℚ)) := by
  have hnil : ∀ g : List ℕ → List ℕ × ℕ × ℕ, groupIbsResult g [] = ([], 0, 0) := by
    intro g
    simp [groupIbsResult]
  have hcandi : candidate_ic_indices sub.total_strl_count (ext sub rbs).VC_indices
      sub.strlLength = [] := by
    unfold candidate_ic_indices
    rw [List.filter_eq_nil_iff]
    intro a ha
    simp only [decide_eq_true_eq, not_le]
    exact hshort a ha
  have hrejshort : rejected_short_indices sub.total_strl_count (ext sub rbs).VC_indices
      sub.strlLength =
      candidate_ic_strl_indices sub.total_strl_count (ext sub rbs).VC_indices := by
    unfold rejected_short_indices
    rw [List.filter_eq_self]
    intro a ha
    simp only [decide_eq_true_eq]
    exact hshort a ha
  have hrej : rejected_indices sub.total_strl_count (ext sub rbs).VC_indices
      sub.strlLength grp =
      candidate_ic_strl_indices sub.total_strl_count (ext sub rbs).VC_indices := by
    simp [rejected_indices, hrejshort, hcandi, groupIbsResult]
  have hgrp : ∀ grp₂ : List ℕ → List ℕ × ℕ × ℕ,
      groupIbsResult grp₂ (candidate_ic_indices sub.total_strl_count
        (ext sub rbs).VC_indices sub.strlLength) = ([], 0, 0) := by
    intro grp₂
    simp [groupIbsResult, hcandi]
  have hic : ic_counts sub.total_strl_count (ext sub rbs).VC_indices
      sub.strlLength grp = 0 := by
    simp [ic_counts, hgrp]
  have hcheck : ¬((ic_counts sub.total_strl_count (ext sub rbs).VC_indices
        sub.strlLength grp : ℤ) ≠
      ((candidate_ic_strl_indices sub.total_strl_count (ext sub rbs).VC_indices).length : ℤ) -
      ((rejected_indices sub.total_strl_count (ext sub rbs).VC_indices
        sub.strlLength grp).length : ℤ)) := by
    rw [hic, hrej]
    simp
  refine ⟨hcandi, ?_, hrej, ?_⟩
  · intro grp₂
    unfold score_submission
    rw [hprep]
    simp only [assembleScores, successScorecard, rejected_indices, ic_counts, nb_ib,
      hgrp, hrejshort, hcandi, hnil]
  · refine ⟨successScorecard sub.total_strl_count (ext sub rbs).VC_indices
      (ext sub rbs).found_vbs_info sub.strlLength grp, ?_, ?_, ?_, ?_⟩
    · rw [score_submission_eq ext grp sub flags hprep]
      unfold assembleScores
      rw [if_neg hcheck, if_neg hN]
    · show (((candidate_ic_strl_indices sub.total_strl_count
          (ext sub rbs).VC_indices).length : ℚ) -
          ((rejected_indices sub.total_strl_count (ext sub rbs).VC_indices
            sub.strlLength grp).length : ℚ)) / (sub.total_strl_count : ℚ) = 0
      rw [hrej, sub_self, zero_div]
    · show nb_ib sub.total_strl_count (ext sub rbs).VC_indices sub.strlLength grp = 0
      simp [nb_ib, hgrp]
    · show ((rejected_indices sub.total_strl_count (ext sub rbs).VC_indices
          sub.strlLength grp).length : ℚ) / (sub.total_strl_count : ℚ) = _
      rw [hrej]

/-- Witness for C10: a two-streamline submission whose sole non-VC
streamline is 10 units long. -/
theorem score_submission_all_short_no_grouper_witness :
    (prepare_gt_bundles_info envS.bundle_files envS.attribs = .ok rbsS
      ∧ subShort.total_strl_count ≠ 0
      ∧ (∀ idx ∈ candidate_ic_strl_indices subShort.total_strl_count
            (extS subShort rbsS).VC_indices, subShort.strlLength idx < length_thres))
    ∧ (candidate_ic_indices subShort.total_strl_count (extS subShort rbsS).VC_indices
        subShort.strlLength = [] ∧
      (∀ grp₂ : List ℕ → List ℕ × ℕ × ℕ,
        score_submission envS extS grp₂ subShort flagsS =
          score_submission envS extS grpS subShort flagsS) ∧
      rejected_indices subShort.total_strl_count (extS subShort rbsS).VC_indices
        subShort.strlLength grpS =
        candidate_ic_strl_indices subShort.total_strl_count (extS subShort rbsS).VC_indices ∧
      (∃ s : Scorecard, score_submission envS extS grpS subShort flagsS = .ok s ∧
        s.IC = 0 ∧ s.IB = 0 ∧
        s.NC = ((candidate_ic_strl_indices subShort.total_strl_count
                  (extS subShort rbsS).VC_indices).length : ℚ) /
               (subShort.total_strl_count : ℚ))) :=
  ⟨⟨by decide, by decide, by decide⟩,
    score_submission_all_short_no_grouper envS extS grpS subShort flagsS rbsS
      (by decide) (by decide) (by decide)⟩

/-- Claim C2, counterexample to the claim as stated: on a run whose
`found_vbs_info` has a bundle "b2" with zero assigned streamlines, the
four per-bundle metric mappings of the returned scorecard do contain
"b2" (while `streamlines_per_bundle` does not), and the mean overlap is
not the mean over the bundles with at least one assignment (which would
be 1/2): the comprehensions at scoring.py:242-249 and the means at
scoring.py:252-256 range over all of `found_vbs_info`, with no
`nb_streamlines > 0` filter. -/
theorem score_submission_zero_bundle_in_metric_maps_cex :
    score_submission envS extS grpS subS flagsS = .ok sS ∧
    "b2" ∈ sS.overlap_per_bundle.map Prod.fst ∧
    "b2" ∈ sS.overreach_per_bundle.map Prod.fst ∧
    "b2" ∈ sS.overreach_norm_gt_per_bundle.map Prod.fst ∧
    "b2" ∈ sS.f1_score_per_bundle.map Prod.fst ∧
    "b2" ∉ sS.streamlines_per_bundle.map Prod.fst ∧
    sS.mean_OL ≠ 1 / 2 := by
  have hprep : prepare_gt_bundles_info envS.bundle_files envS.attribs = .ok rbsS := by
    decide
  have hs : score_submission envS extS grpS subS flagsS = .ok sS := by
    rw [score_submission_eq extS grpS subS flagsS hprep]
    unfold assembleScores
    rw [if_neg (by decide), if_neg (by decide)]
    rfl
  refine ⟨hs, by decide, by decide, by decide, by decide, by decide, ?_⟩
  show listMean (vbsS.map (fun kv => kv.2.overlap)) ≠ 1 / 2
  simp only [vbsS, listMean, List.map_cons, List.map_nil, List.sum_cons, List.sum_nil,
    List.length_cons, List.length_nil]
  norm_num

/-- Claim C2 as amended: the key list of each of the four per-bundle
metric mappings equals the full key list of `found_vbs_info` — bundles
with zero assigned streamlines included — while
`streamlines_per_bundle` keeps exactly the bundles with at least one
assigned streamline, and `mean_OL`, `mean_OR`, `mean_ORn`, `mean_F1`
are the arithmetic means over all entries of `found_vbs_info`. -/
theorem score_submission_per_bundle_maps_and_means
    (env : GTEnv) (ext : Submission → List RefBundle → VCExtraction)
    (grp : List ℕ → List ℕ × ℕ × ℕ) (sub : Submission) (flags : SaveFlags)
    (rbs : List RefBundle) (s : Scorecard)
    (hprep : prepare_gt_bundles_info env.bundle_files env.attribs = .ok rbs)
    (h : score_submission env ext grp sub flags = .ok s) :
    s.overlap_per_bundle.map Prod.fst = (ext sub rbs).found_vbs_info.map Prod.fst ∧
    s.overreach_per_bundle.map Prod.fst = (ext sub rbs).found_vbs_info.map Prod.fst ∧
    s.overreach_norm_gt_per_bundle.map Prod.fst =
      (ext sub rbs).found_vbs_info.map Prod.fst ∧
    s.f1_score_per_bundle.map Prod.fst = (ext sub rbs).found_vbs_info.map Prod.fst ∧
    s.streamlines_per_bundle.map Prod.fst =
      ((ext sub rbs).found_vbs_info.filter
        (fun kv => 0 < kv.2.nb_streamlines)).map Prod.fst ∧
    s.mean_OL = listMean ((ext sub rbs).found_vbs_info.map (fun kv => kv.2.overlap)) ∧
    s.mean_OR = listMean ((ext sub rbs).found_vbs_info.map (fun kv => kv.2.overreach)) ∧
    s.mean_ORn =
      listMean ((ext sub rbs).found_vbs_info.map (fun kv => kv.2.overreach_norm)) ∧
    s.mean_F1 = listMean ((ext sub rbs).found_vbs_info.map (fun kv => kv.2.f1_score)) := by
  rw [score_submission_eq ext grp sub flags hprep, assembleScores_ok_iff] at h
  obtain ⟨-, -, hs⟩ := h
  subst hs
  refine ⟨?_, ?_, ?_, ?_, ?_, rfl, rfl, rfl, rfl⟩ <;>
    simp [successScorecard, List.map_map, Function.comp]

/-- Witness for the amended C2 on the concrete fixtures. -/
theorem score_submission_per_bundle_maps_and_means_witness :
    (prepare_gt_bundles_info envS.bundle_files envS.attribs = .ok rbsS
      ∧ score_submission envS extS grpS subS flagsS = .ok sS)
    ∧ (sS.overlap_per_bundle.map Prod.fst = (extS subS rbsS).found_vbs_info.map Prod.fst ∧
      sS.overreach_per_bundle.map Prod.fst = (extS subS rbsS).found_vbs_info.map Prod.fst ∧
      sS.overreach_norm_gt_per_bundle.map Prod.fst =
        (extS subS rbsS).found_vbs_info.map Prod.fst ∧
      sS.f1_score_per_bundle.map Prod.fst = (extS subS rbsS).found_vbs_info.map Prod.fst ∧
      sS.streamlines_per_bundle.map Prod.fst =
        ((extS subS rbsS).found_vbs_info.filter
          (fun kv => 0 < kv.2.nb_streamlines)).map Prod.fst ∧
      sS.mean_OL = listMean ((extS subS rbsS).found_vbs_info.map (fun kv => kv.2.overlap)) ∧
      sS.mean_OR = listMean ((extS subS rbsS).found_vbs_info.map (fun kv => kv.2.overreach)) ∧
      sS.mean_ORn =
        listMean ((extS subS rbsS).found_vbs_info.map (fun kv => kv.2.overreach_norm)) ∧
      sS.mean_F1 =
        listMean ((extS subS rbsS).found_vbs_info.map (fun kv => kv.2.f1_score))) := by
  have hprep : prepare_gt_bundles_info envS.bundle_files envS.attribs = .ok rbsS := by
    decide
  have hs : score_submission envS extS grpS subS flagsS = .ok sS := by
    rw [score_submission_eq extS grpS subS flagsS hprep]
    unfold assembleScores
    rw [if_neg (by decide), if_neg (by decide)]
    rfl
  exact ⟨⟨hprep, hs⟩,
    score_submission_per_bundle_maps_and_means envS extS grpS subS flagsS rbsS sS hprep hs⟩

/-- Claim C3, counterexample to the claim as stated: on an empty
submission the partition consistency check passes (0 == 0 − 0), yet no
scorecard is returned — the run aborts with the ZeroDivisionError of
scoring.py:217 — refuting "when the check passes a complete scorecard
is returned". -/
theorem score_submission_empty_check_passes_cex :
    (ic_counts subEmpty.total_strl_count (extS subEmpty rbsS).VC_indices
        subEmpty.strlLength grpS : ℤ) =
      ((candidate_ic_strl_indices subEmpty.total_strl_count
        (extS subEmpty rbsS).VC_indices).length : ℤ) -
      ((rejected_indices subEmpty.total_strl_count (extS subEmpty rbsS).VC_indices
        subEmpty.strlLength grpS).length : ℤ) ∧
    score_submission envS extS grpS subEmpty flagsS = .error .zeroDivision := by
  decide

/-- Claim C3 as amended: given that ground-truth loading succeeds,
`score_submission` raises the partition ValueError (scoring.py:203-204)
iff the invalid-connection count differs from the candidate count minus
the rejected count; when the check passes on a non-empty submission a
complete scorecard is returned (on an empty submission the run instead
aborts with a ZeroDivisionError). -/
theorem score_submission_partition_check_iff
    (env : GTEnv) (ext : Submission → List RefBundle → VCExtraction)
    (grp : List ℕ → List ℕ × ℕ × ℕ) (sub : Submission) (flags : SaveFlags)
    (rbs : List RefBundle)
    (hprep : prepare_gt_bundles_info env.bundle_files env.attribs = .ok rbs) :
    (score_submission env ext grp sub flags = .error .partitionError ↔
      (ic_counts sub.total_strl_count (ext sub rbs).VC_indices
          sub.strlLength grp : ℤ) ≠
        ((candidate_ic_strl_indices sub.total_strl_count
          (ext sub rbs).VC_indices).length : ℤ) -
        ((rejected_indices sub.total_strl_count (ext sub rbs).VC_indices
          sub.strlLength grp).length : ℤ)) ∧
    ((ic_counts sub.total_strl_count (ext sub rbs).VC_indices
        sub.strlLength grp : ℤ) =
      ((candidate_ic_strl_indices sub.total_strl_count
        (ext sub rbs).VC_indices).length : ℤ) -
      ((rejected_indices sub.total_strl_count (ext sub rbs).VC_indices
        sub.strlLength grp).length : ℤ) →
      sub.total_strl_count ≠ 0 →
      score_submission env ext grp sub flags =
        .ok (successScorecard sub.total_strl_count (ext sub rbs).VC_indices
          (ext sub rbs).found_vbs_info sub.strlLength grp)) := by
  rw [score_submission_eq ext grp sub flags hprep]
  unfold assembleScores
  constructor
  · by_cases hc : (ic_counts sub.total_strl_count (ext sub rbs).VC_indices
        sub.strlLength grp : ℤ) ≠
        ((candidate_ic_strl_indices sub.total_strl_count
          (ext sub rbs).VC_indices).length : ℤ) -
        ((rejected_indices sub.total_strl_count (ext sub rbs).VC_indices
          sub.strlLength grp).length : ℤ)
    · rw [if_pos hc]
      simp [hc]
    · rw [if_neg hc]
      by_cases hN : sub.total_strl_count = 0
      · rw [if_pos hN]
        simp [hc]
      · rw [if_neg hN]
        simp [hc]
  · intro hicc hN
    rw [if_neg (by simp [hicc]), if_neg hN]

/-- Witness for the amended C3 on the concrete fixtures. -/
theorem score_submission_partition_check_iff_witness :
    prepare_gt_bundles_info envS.bundle_files envS.attribs = .ok rbsS ∧
    ((score_submission envS extS grpS subS flagsS = .error .partitionError ↔
      (ic_counts subS.total_strl_count (extS subS rbsS).VC_indices
          subS.strlLength grpS : ℤ) ≠
        ((candidate_ic_strl_indices subS.total_strl_count
          (extS subS rbsS).VC_indices).length : ℤ) -
        ((rejected_indices subS.total_strl_count (extS subS rbsS).VC_indices
          subS.strlLength grpS).length : ℤ)) ∧
    ((ic_counts subS.total_strl_count (extS subS rbsS).VC_indices
        subS.strlLength grpS : ℤ) =
      ((candidate_ic_strl_indices subS.total_strl_count
        (extS subS rbsS).VC_indices).length : ℤ) -
      ((rejected_indices subS.total_strl_count (extS subS rbsS).VC_indices
        subS.strlLength grpS).length : ℤ) →
      subS.total_strl_count ≠ 0 →
      score_submission envS extS grpS subS flagsS =
        .ok (successScorecard subS.total_strl_count (extS subS rbsS).VC_indices
          (extS subS rbsS).found_vbs_info subS.strlLength grpS))) :=
  ⟨by decide,
    score_submission_partition_check_iff envS extS grpS subS flagsS rbsS (by decide)⟩
